import Mathlib

/-!
Shallow embedding of the siderolabs/go-tools image signer:
the credential acquisition in pkg/signer/auth.go, the signature
inspection (VerifySignature and its per-format helpers), the signing
dispatcher (SignImage) and the batch loop (signImages) of the sign
command.  External collaborators (cosign verification and signing
backends, the OIDC issuer, the image-reference parser) are modelled as
fields of an environment record; opaque external values (signature
objects, tokens) are modelled by the outcomes of the observations the
source code makes of them.
-/

set_option autoImplicit false

namespace GoTools

/-- External constant options.DefaultOIDCIssuerURL from the cosign CLI options package. -/
def DefaultOIDCIssuerURL : String := "https://oauth2.sigstore.dev/auth"

/-- External constant options.DefaultFulcioURL from the cosign CLI options package. -/
def DefaultFulcioURL : String := "https://fulcio.sigstore.dev"

/-- External constant options.DefaultRekorURL from the cosign CLI options package. -/
def DefaultRekorURL : String := "https://rekor.sigstore.dev"

/-- Modelled from the spec: the fixed Sigstore OIDC client identifier, a package-level
constant of the signer package whose defining file is not among the provided sources;
its concrete value is irrelevant to every claim, only its fixedness matters. -/
def SigstoreOIDCClientID : String := "sigstore"

/-- External constant payload.CosignSignatureType (the legacy type tag, quoted in the
source comment: cosign container image signature). -/
def CosignSignatureType : String := "cosign container image signature"

/-- External constant types.CosignSignPredicateType (the bundled predicate type tag,
quoted in the source comment). -/
def CosignSignPredicateType : String := "https://sigstore.dev/cosign/sign/v1"

/-- The oauthflow.TokenGetter values that getToken can select. -/
inductive TokenGetter where
  | defaultIDTokenGetter
  | publicInstanceGoogleIDTokenGetter
  | publicInstanceGithubIDTokenGetter
  | publicInstanceMicrosoftIDTokenGetter
  | deviceFlowTokenGetterForIssuer (issuer : String)
  deriving DecidableEq

/-- An OIDC token as returned by oauthflow.OIDConnect; only RawString is consumed. -/
structure OIDCToken where
  rawString : String
  deriving DecidableEq

/-- Opaque trusted-root material returned by cosign.TrustedRoot. -/
inductive TrustedRoot where
  | root
  deriving DecidableEq

/-- A cosign.Identity constraint: issuer plus subject regular expression. -/
structure Identity where
  issuer : String
  subjectRegExp : String
  deriving DecidableEq

/-- A legacy (OCI) signature as observed by verifyLegacySignature: the outcome of
sig.Payload() followed by JSON unmarshaling into payload.SimpleContainerImage.
The external decoding steps are represented by their results. -/
inductive LegacySigDecode where
  | payloadError (msg : String)
  | unmarshalError (msg : String)
  | decoded (criticalType : String)
  deriving DecidableEq

/-- A bundled signature as observed by verifyBundledSignature: the outcome of
sig.Payload(), JSON unmarshaling into a dsse.Envelope, DecodeB64Payload, and JSON
unmarshaling into an in_toto.Statement whose PredicateType is then inspected. -/
inductive BundledSigDecode where
  | payloadError (msg : String)
  | unmarshalError (msg : String)
  | decodeB64Error (msg : String)
  | statementUnmarshalError (msg : String)
  | decoded (predicateType : String)
  deriving DecidableEq

/-- Errors returned by the cosign verification backend, as the source distinguishes
them via errors.As: the two typed not-found conditions and everything else. -/
inductive VerifyError where
  | errNoSignaturesFound
  | errNoMatchingAttestations
  | otherError (msg : String)
  deriving DecidableEq

/-- The message an escaping backend error contributes to the returned error string. -/
def VerifyError.message : VerifyError → String
  | .errNoSignaturesFound => "no signatures found"
  | .errNoMatchingAttestations => "no matching attestations"
  | .otherError m => m

/-- options.KeyOpts as populated by SignImage. -/
structure KeyOpts where
  fulcioURL : String
  rekorURL : String
  oidcIssuer : String
  oidcClientID : String
  skipConfirmation : Bool
  trustedMaterial : TrustedRoot
  idToken : String
  fulcioAuthFlow : String
  newBundleFormat : Bool
  deriving DecidableEq

/-- options.RekorOptions. -/
structure RekorOptions where
  url : String
  deriving DecidableEq

/-- options.FulcioOptions. -/
structure FulcioOptions where
  url : String
  deriving DecidableEq

/-- options.OIDCOptions. -/
structure OIDCOptions where
  issuer : String
  clientID : String
  deriving DecidableEq

/-- options.SignOptions as populated by SignImage. -/
structure SignOptions where
  upload : Bool
  tlogUpload : Bool
  rekor : RekorOptions
  fulcio : FulcioOptions
  oidc : OIDCOptions
  newBundleFormat : Bool
  useSigningConfig : Bool
  deriving DecidableEq

/-- options.RootOptions; the Go time.Duration is modelled as a Nat of nanoseconds. -/
structure RootOptions where
  timeout : Nat
  deriving DecidableEq

/-- One invocation of the external sign.SignCmd, with every argument it received. -/
structure SignCall where
  rootOpts : RootOptions
  keyOpts : KeyOpts
  signOpts : SignOptions
  images : List String
  deriving DecidableEq

/-- The environment of external collaborators consumed by the source: the reference
parser, the trusted-root supplier, the two cosign verification queries, the OIDC
connect call and the signing backend.  Each is a pure function of the arguments the
source passes it. -/
structure Env where
  parseReference : String → Except String String
  trustedRoot : Except String TrustedRoot
  verifyImageSignatures : String → TrustedRoot → List Identity →
    List LegacySigDecode × Bool × Option VerifyError
  verifyImageAttestations : String → TrustedRoot → List Identity →
    List BundledSigDecode × Bool × Option VerifyError
  oidConnect : String → String → TokenGetter → Except String OIDCToken
  signCmd : RootOptions → KeyOpts → SignOptions → List String → Except String Unit

/-- The provider switch of getToken (auth.go lines 19 to 30): the four recognized
providers select their getter, anything else returns the unsupported-provider error
immediately. -/
def providerTokenGetter (provider : String) : Except String TokenGetter :=
  if provider = "" then .ok .defaultIDTokenGetter
  else if provider = "google" then .ok .publicInstanceGoogleIDTokenGetter
  else if provider = "github" then .ok .publicInstanceGithubIDTokenGetter
  else if provider = "microsoft" then .ok .publicInstanceMicrosoftIDTokenGetter
  else .error ("unsupported provider: " ++ provider)

/-- Token-getter selection of getToken (auth.go lines 19 to 34): the provider switch
runs first and returns early on an unrecognized provider; only then does a requested
device flow override the selected getter. -/
def selectTokenGetter (provider : String) (deviceFlow : Bool) : Except String TokenGetter :=
  match providerTokenGetter provider with
  | .error e => .error e
  | .ok tokenGetter =>
    .ok (if deviceFlow then .deviceFlowTokenGetterForIssuer DefaultOIDCIssuerURL else tokenGetter)

/-- The body of the closure getToken hands to sync.OnceValues: select the getter, then
call oauthflow.OIDConnect.  The second component counts OIDConnect invocations (zero
when the provider switch fails, one otherwise). -/
def getTokenBody (env : Env) (provider : String) (deviceFlow : Bool) :
    Except String String × Nat :=
  match selectTokenGetter provider deviceFlow with
  | .error e => (.error e, 0)
  | .ok tokenGetter =>
    match env.oidConnect DefaultOIDCIssuerURL SigstoreOIDCClientID tokenGetter with
    | .error e => (.error e, 1)
    | .ok tok => (.ok tok.rawString, 1)

instance instDecEqExcept {ε α : Type} [DecidableEq ε] [DecidableEq α] :
    DecidableEq (Except ε α) := fun x y =>
  match x, y with
  | .error a, .error b => decidable_of_iff (a = b) (by simp)
  | .error _, .ok _ => .isFalse (fun h => Except.noConfusion h)
  | .ok _, .error _ => .isFalse (fun h => Except.noConfusion h)
  | .ok a, .ok b => decidable_of_iff (a = b) (by simp)

/-- The observable outcome of calling the function returned by sync.OnceValues once:
the returned value, the updated memo cell, how many times the body ran during this
call, and how many OIDConnect invocations that entailed. -/
structure OnceOutcome where
  result : Except String String
  cell : Option (Except String String)
  attempts : Nat
  connects : Nat
  deriving DecidableEq

/-- One call of a sync.OnceValues wrapper: a set cell answers from the memo with no
body execution; an unset cell runs the body once and stores its result. -/
def onceCall (body : Except String String × Nat) (cell : Option (Except String String)) :
    OnceOutcome :=
  match cell with
  | some r => ⟨r, some r, 0, 0⟩
  | none => ⟨body.1, some body.1, 1, body.2⟩

/-- The result record of VerifySignature. -/
structure signatureStatus where
  LegacySignature : Bool
  BundleSignature : Bool
  deriving DecidableEq

/-- validateNoSignatureFound: errors.As against cosign.ErrNoSignaturesFound. -/
def validateNoSignatureFound (err : VerifyError) : Bool :=
  match err with
  | .errNoSignaturesFound => true
  | _ => false

/-- validateNoMatchingAttestations: errors.As against cosign.ErrNoMatchingAttestations. -/
def validateNoMatchingAttestations (err : VerifyError) : Bool :=
  match err with
  | .errNoMatchingAttestations => true
  | _ => false

/-- The signature loop of verifyLegacySignature (part_000 lines 70 to 85): take the
payload, unmarshal it, and require critical.type to equal the cosign signature type;
the first failing signature aborts the loop with its error. -/
def checkLegacySignatures : List LegacySigDecode → Except String Unit
  | [] => .ok ()
  | sig :: rest =>
    match sig with
    | .payloadError m => .error ("error getting signature payload: " ++ m)
    | .unmarshalError m => .error ("error unmarshaling signature payload: " ++ m)
    | .decoded criticalType =>
      if criticalType ≠ CosignSignatureType then
        .error ("legacy signature found but with unexpected type: " ++ criticalType)
      else
        checkLegacySignatures rest

/-- The signature loop of verifyBundledSignature (part_000 lines 110 to 136): take the
payload, unmarshal the DSSE envelope, base64-decode its payload, unmarshal the in-toto
statement, and require its predicateType to equal the cosign-sign predicate type. -/
def checkBundledSignatures : List BundledSigDecode → Except String Unit
  | [] => .ok ()
  | sig :: rest =>
    match sig with
    | .payloadError m => .error ("error getting signature payload: " ++ m)
    | .unmarshalError m => .error ("error unmarshaling signature payload: " ++ m)
    | .decodeB64Error m => .error ("error decoding signature payload: " ++ m)
    | .statementUnmarshalError m => .error ("error unmarshaling signature statement: " ++ m)
    | .decoded predicateType =>
      if predicateType ≠ CosignSignPredicateType then
        .error ("bundled signature found but with unexpected type: " ++ predicateType)
      else
        checkBundledSignatures rest

/-- verifyLegacySignature (part_000 lines 59 to 95): query cosign.VerifyImageSignatures;
on success require bundleVerified, then check every signature; a typed
no-signatures-found error reports absence, any other error propagates. -/
def verifyLegacySignature (env : Env) (ref : String) (trustedRoot : TrustedRoot)
    (identities : List Identity) : Except String Bool :=
  match env.verifyImageSignatures ref trustedRoot identities with
  | (signatures, bundleVerified, none) =>
    if !bundleVerified then
      .error "legacy signatures found but verification failed"
    else
      match checkLegacySignatures signatures with
      | .error e => .error e
      | .ok _ => .ok true
  | (_, _, some verifyErr) =>
    if validateNoSignatureFound verifyErr then
      .ok false
    else
      .error verifyErr.message

/-- verifyBundledSignature (part_000 lines 97 to 146): query
cosign.VerifyImageAttestations (with NewBundleFormat set); on success require
bundleVerified, then check every signature; a typed no-matching-attestations error
reports absence, any other error propagates. -/
def verifyBundledSignature (env : Env) (ref : String) (trustedRoot : TrustedRoot)
    (identities : List Identity) : Except String Bool :=
  match env.verifyImageAttestations ref trustedRoot identities with
  | (signatures, bundleVerified, none) =>
    if !bundleVerified then
      .error "bundled signatures found but verification failed"
    else
      match checkBundledSignatures signatures with
      | .error e => .error e
      | .ok _ => .ok true
  | (_, _, some verifyErr) =>
    if validateNoMatchingAttestations verifyErr then
      .ok false
    else
      .error verifyErr.message

/-- VerifySignature (part_000 lines 32 to 57): parse the reference, fetch the trusted
root, verify the legacy format then the bundled format, and combine the two flags. -/
def VerifySignature (env : Env) (image : String) (identities : List Identity) :
    Except String signatureStatus :=
  match env.parseReference image with
  | .error e => .error ("error parsing image reference for " ++ image ++ ": " ++ e)
  | .ok ref =>
    match env.trustedRoot with
    | .error e => .error ("error getting trusted roots: " ++ e)
    | .ok trustedRoot =>
      match verifyLegacySignature env ref trustedRoot identities with
      | .error e => .error ("error verifying legacy signature: " ++ e)
      | .ok legacyStatus =>
        match verifyBundledSignature env ref trustedRoot identities with
        | .error e => .error ("error verifying bundled signature: " ++ e)
        | .ok bundledStatus => .ok ⟨legacyStatus, bundledStatus⟩

/-- The options.KeyOpts literal of SignImage (part_001 lines 27 to 36); NewBundleFormat
is left at its zero value false. -/
def mkKeyOptions (trustedRoot : TrustedRoot) (token : String) : KeyOpts :=
  { fulcioURL := DefaultFulcioURL
    rekorURL := DefaultRekorURL
    oidcIssuer := DefaultOIDCIssuerURL
    oidcClientID := SigstoreOIDCClientID
    skipConfirmation := true
    trustedMaterial := trustedRoot
    idToken := token
    fulcioAuthFlow := "token"
    newBundleFormat := false }

/-- The options.SignOptions literal of SignImage (part_001 lines 38 to 51);
NewBundleFormat and UseSigningConfig are left at their zero value false. -/
def mkSignOptions : SignOptions :=
  { upload := true
    tlogUpload := true
    rekor := ⟨DefaultRekorURL⟩
    fulcio := ⟨DefaultFulcioURL⟩
    oidc := ⟨DefaultOIDCIssuerURL, SigstoreOIDCClientID⟩
    newBundleFormat := false
    useSigningConfig := false }

/-- The observable outcome of one SignImage call: its returned error value, the
sign.SignCmd invocations it performed in order, how many times a token-getter body
ran, and how many OIDConnect invocations occurred. -/
structure SignOutcome where
  result : Except String Unit
  calls : List SignCall
  tokenAttempts : Nat
  oidConnects : Nat
  deriving DecidableEq

/-- The legacy branch of SignImage (part_001 lines 57 to 63): when legacySigned is
false, invoke sign.SignCmd with the unmodified options and wrap any error. -/
def signLegacyPhase (env : Env) (image : String) (legacySigned : Bool)
    (rootOptions : RootOptions) (keyOptions : KeyOpts) (signingOptions : SignOptions) :
    Except String Unit × List SignCall :=
  if legacySigned then
    (.ok (), [])
  else
    match env.signCmd rootOptions keyOptions signingOptions [image] with
    | .error e =>
      (.error ("error signing legacy signature for image " ++ image ++ ": " ++ e),
        [⟨rootOptions, keyOptions, signingOptions, [image]⟩])
    | .ok _ => (.ok (), [⟨rootOptions, keyOptions, signingOptions, [image]⟩])

/-- The bundled branch of SignImage (part_001 lines 65 to 75): when bundleSigned is
false, set NewBundleFormat on both option records and UseSigningConfig on the signing
options, then invoke sign.SignCmd and wrap any error. -/
def signBundledPhase (env : Env) (image : String) (bundleSigned : Bool)
    (rootOptions : RootOptions) (keyOptions : KeyOpts) (signingOptions : SignOptions) :
    Except String Unit × List SignCall :=
  if bundleSigned then
    (.ok (), [])
  else
    let keyOptions := { keyOptions with newBundleFormat := true }
    let signingOptions :=
      { signingOptions with newBundleFormat := true, useSigningConfig := true }
    match env.signCmd rootOptions keyOptions signingOptions [image] with
    | .error e =>
      (.error ("error signing bundled signature for image " ++ image ++ ": " ++ e),
        [⟨rootOptions, keyOptions, signingOptions, [image]⟩])
    | .ok _ => (.ok (), [⟨rootOptions, keyOptions, signingOptions, [image]⟩])

/-- SignImage (part_001 lines 16 to 78): fetch the trusted root, call the getter
freshly built by getToken (a new sync.OnceValues cell per call), build the option
records, then run the legacy branch and, if it did not fail, the bundled branch. -/
def SignImage (env : Env) (image : String) (legacySigned bundleSigned : Bool)
    (provider : String) (deviceFlow : Bool) (timeout : Nat) : SignOutcome :=
  match env.trustedRoot with
  | .error e => ⟨.error ("error getting trusted roots: " ++ e), [], 0, 0⟩
  | .ok trustedRoot =>
    let once := onceCall (getTokenBody env provider deviceFlow) none
    match once.result with
    | .error e =>
      ⟨.error ("error getting OIDC token: " ++ e), [], once.attempts, once.connects⟩
    | .ok token =>
      let keyOptions := mkKeyOptions trustedRoot token
      let signingOptions := mkSignOptions
      let rootOptions : RootOptions := ⟨timeout⟩
      match signLegacyPhase env image legacySigned rootOptions keyOptions signingOptions with
      | (.error e, calls) => ⟨.error e, calls, once.attempts, once.connects⟩
      | (.ok _, legacyCalls) =>
        match signBundledPhase env image bundleSigned rootOptions keyOptions signingOptions with
        | (.error e, bundledCalls) =>
          ⟨.error e, legacyCalls ++ bundledCalls, once.attempts, once.connects⟩
        | (.ok _, bundledCalls) =>
          ⟨.ok (), legacyCalls ++ bundledCalls, once.attempts, once.connects⟩

/-- The flag record of the sign command (part_001 lines 116 to 123). -/
structure SignCmdOptions where
  certificateIdentityRegexp : String
  certificateOIDCIssuer : String
  oidcProvider : String
  timeout : Nat
  deviceFlow : Bool
  deriving DecidableEq

/-- The cosign.Identity list the sign command passes to VerifySignature
(part_001 lines 132 to 137). -/
def identitiesOf (opts : SignCmdOptions) : List Identity :=
  [⟨opts.certificateOIDCIssuer, opts.certificateIdentityRegexp⟩]

/-- The observable outcome of one signImages run: its returned error value, the images
inspected in order, the images dispatched to SignImage in order, the sign.SignCmd
invocations, and the token-attempt and OIDConnect counters summed over the run. -/
structure BatchOutcome where
  result : Except String Unit
  inspected : List String
  dispatched : List String
  calls : List SignCall
  tokenAttempts : Nat
  oidConnects : Nat
  deriving DecidableEq

/-- signImages (part_001 lines 125 to 156): for each image in order, inspect it;
an inspection error aborts the run with that error; an image with both flags set is
skipped; otherwise SignImage runs and its error, wrapped, aborts the run. -/
def signImages (env : Env) (opts : SignCmdOptions) : List String → BatchOutcome
  | [] => ⟨.ok (), [], [], [], 0, 0⟩
  | image :: rest =>
    match VerifySignature env image (identitiesOf opts) with
    | .error e => ⟨.error e, [image], [], [], 0, 0⟩
    | .ok signatureInfo =>
      if signatureInfo.LegacySignature && signatureInfo.BundleSignature then
        let tail := signImages env opts rest
        ⟨tail.result, image :: tail.inspected, tail.dispatched, tail.calls,
          tail.tokenAttempts, tail.oidConnects⟩
      else
        let s := SignImage env image signatureInfo.LegacySignature
          signatureInfo.BundleSignature opts.oidcProvider opts.deviceFlow opts.timeout
        match s.result with
        | .error e =>
          ⟨.error ("failed to sign image " ++ image ++ ": " ++ e), [image], [image],
            s.calls, s.tokenAttempts, s.oidConnects⟩
        | .ok _ =>
          let tail := signImages env opts rest
          ⟨tail.result, image :: tail.inspected, image :: tail.dispatched,
            s.calls ++ tail.calls, s.tokenAttempts + tail.tokenAttempts,
            s.oidConnects + tail.oidConnects⟩

/-- A legacy signature passes the loop body: it decoded and its critical.type equals
the cosign signature type. -/
def legacyWellFormed : LegacySigDecode → Bool
  | .decoded criticalType => criticalType == CosignSignatureType
  | _ => false

/-- A bundled signature passes the loop body: it decoded through every step and its
predicateType equals the cosign-sign predicate type. -/
def bundledWellFormed : BundledSigDecode → Bool
  | .decoded predicateType => predicateType == CosignSignPredicateType
  | _ => false

/-- The provider strings the getToken switch recognizes. -/
def supportedProvider (provider : String) : Bool :=
  provider == "" || provider == "google" || provider == "github" || provider == "microsoft"

/-- One image of the batch completes without error: its inspection succeeds and it is
either already fully signed or its SignImage call returns no error. -/
def imageOk (env : Env) (opts : SignCmdOptions) (image : String) : Bool :=
  match VerifySignature env image (identitiesOf opts) with
  | .error _ => false
  | .ok signatureInfo =>
    if signatureInfo.LegacySignature && signatureInfo.BundleSignature then
      true
    else
      match (SignImage env image signatureInfo.LegacySignature signatureInfo.BundleSignature
        opts.oidcProvider opts.deviceFlow opts.timeout).result with
      | .ok _ => true
      | .error _ => false

/-- The error value the loop body of signImages produces for one image: the inspection
error verbatim, or the SignImage error wrapped with the failed-to-sign prefix, or no
error when the image is skipped or signed. -/
def imageStepError (env : Env) (opts : SignCmdOptions) (image : String) :
    Except String Unit :=
  match VerifySignature env image (identitiesOf opts) with
  | .error e => .error e
  | .ok signatureInfo =>
    if signatureInfo.LegacySignature && signatureInfo.BundleSignature then
      .ok ()
    else
      match (SignImage env image signatureInfo.LegacySignature signatureInfo.BundleSignature
        opts.oidcProvider opts.deviceFlow opts.timeout).result with
      | .ok _ => .ok ()
      | .error e => .error ("failed to sign image " ++ image ++ ": " ++ e)

/-- The sign.SignCmd invocation the legacy branch performs. -/
def legacySignCall (image : String) (trustedRoot : TrustedRoot) (token : String)
    (timeout : Nat) : SignCall :=
  ⟨⟨timeout⟩, mkKeyOptions trustedRoot token, mkSignOptions, [image]⟩

/-- The sign.SignCmd invocation the bundled branch performs: the same options with
NewBundleFormat set on both records and UseSigningConfig set. -/
def bundledSignCall (image : String) (trustedRoot : TrustedRoot) (token : String)
    (timeout : Nat) : SignCall :=
  ⟨⟨timeout⟩, { mkKeyOptions trustedRoot token with newBundleFormat := true },
    { mkSignOptions with newBundleFormat := true, useSigningConfig := true }, [image]⟩

/-- Backend outcome of a fully signed image for the legacy query. -/
def fullySignedLegacyOutcome : List LegacySigDecode × Bool × Option VerifyError :=
  ([.decoded CosignSignatureType], true, none)

/-- Backend outcome of a fully signed image for the bundled query. -/
def fullySignedBundledOutcome : List BundledSigDecode × Bool × Option VerifyError :=
  ([.decoded CosignSignPredicateType], true, none)

/-- Backend outcome of an unsigned image for the legacy query. -/
def absentLegacyOutcome : List LegacySigDecode × Bool × Option VerifyError :=
  ([], false, some .errNoSignaturesFound)

/-- Backend outcome of an unsigned image for the bundled query. -/
def absentBundledOutcome : List BundledSigDecode × Bool × Option VerifyError :=
  ([], false, some .errNoMatchingAttestations)

/-- A concrete environment in which every image lacks both signature formats and every
external call succeeds. -/
def envAllMissing : Env :=
  { parseReference := fun s => .ok s
    trustedRoot := .ok .root
    verifyImageSignatures := fun _ _ _ => absentLegacyOutcome
    verifyImageAttestations := fun _ _ _ => absentBundledOutcome
    oidConnect := fun _ _ _ => .ok ⟨"token-value"⟩
    signCmd := fun _ _ _ _ => .ok () }

/-- A concrete environment in which every image already carries both formats. -/
def envAllSigned : Env :=
  { envAllMissing with
    verifyImageSignatures := fun _ _ _ => fullySignedLegacyOutcome
    verifyImageAttestations := fun _ _ _ => fullySignedBundledOutcome }

/-- A concrete environment in which both verification queries report signatures found
with the bundle-verified flag false. -/
def envUnverified : Env :=
  { envAllMissing with
    verifyImageSignatures := fun _ _ _ => ([.decoded CosignSignatureType], false, none)
    verifyImageAttestations := fun _ _ _ =>
      ([.decoded CosignSignPredicateType], false, none) }

/-- A concrete environment in which both queries return verified signature sets whose
payloads carry wrong type tags. -/
def envMalformed : Env :=
  { envAllMissing with
    verifyImageSignatures := fun _ _ _ => ([.decoded "wrong-type"], true, none)
    verifyImageAttestations := fun _ _ _ => ([.decoded "wrong-predicate"], true, none) }

/-- A concrete environment in which the image named bad fails its legacy verification
query with an untyped backend error while every other image is fully signed. -/
def envMixed : Env :=
  { envAllSigned with
    verifyImageSignatures := fun ref _ _ =>
      if ref == "bad" then ([], false, some (.otherError "registry unreachable"))
      else fullySignedLegacyOutcome }

/-- The concrete flag record used by the witnesses: the google provider with the
device flow requested. -/
def optsGoogleDevice : SignCmdOptions :=
  ⟨"@siderolabs\\.com$", "https://accounts.google.com", "google", 300, true⟩

theorem checkLegacySignatures_ok_iff (sigs : List LegacySigDecode) :
    checkLegacySignatures sigs = .ok () ↔ ∀ s ∈ sigs, legacyWellFormed s = true := by
  induction sigs with
  | nil => simp [checkLegacySignatures]
  | cons sig rest ih =>
    cases sig with
    | payloadError m => simp [checkLegacySignatures, legacyWellFormed]
    | unmarshalError m => simp [checkLegacySignatures, legacyWellFormed]
    | decoded t =>
      by_cases ht : t = CosignSignatureType
      · subst ht
        simp [checkLegacySignatures, legacyWellFormed, ih]
      · simp [checkLegacySignatures, legacyWellFormed, ht, ih]

theorem checkBundledSignatures_ok_iff (sigs : List BundledSigDecode) :
    checkBundledSignatures sigs = .ok () ↔ ∀ s ∈ sigs, bundledWellFormed s = true := by
  induction sigs with
  | nil => simp [checkBundledSignatures]
  | cons sig rest ih =>
    cases sig with
    | payloadError m => simp [checkBundledSignatures, bundledWellFormed]
    | unmarshalError m => simp [checkBundledSignatures, bundledWellFormed]
    | decodeB64Error m => simp [checkBundledSignatures, bundledWellFormed]
    | statementUnmarshalError m => simp [checkBundledSignatures, bundledWellFormed]
    | decoded t =>
      by_cases ht : t = CosignSignPredicateType
      · subst ht
        simp [checkBundledSignatures, bundledWellFormed, ih]
      · simp [checkBundledSignatures, bundledWellFormed, ht, ih]

/-- Claim C2: when a per-format verification query returns without error but with the
bundle-verified flag false, the per-format verifier fails with the
found-but-verification-failed error and never yields a status flag for that format;
found-but-unverified is never classified as absent. -/
theorem found_but_unverified_fails :
    (∀ (env : Env) (ref : String) (tr : TrustedRoot) (ids : List Identity)
      (sigs : List LegacySigDecode),
      env.verifyImageSignatures ref tr ids = (sigs, false, none) →
        verifyLegacySignature env ref tr ids =
          .error "legacy signatures found but verification failed" ∧
        ∀ b : Bool, verifyLegacySignature env ref tr ids ≠ .ok b) ∧
    (∀ (env : Env) (ref : String) (tr : TrustedRoot) (ids : List Identity)
      (sigs : List BundledSigDecode),
      env.verifyImageAttestations ref tr ids = (sigs, false, none) →
        verifyBundledSignature env ref tr ids =
          .error "bundled signatures found but verification failed" ∧
        ∀ b : Bool, verifyBundledSignature env ref tr ids ≠ .ok b) := by
  constructor
  · intro env ref tr ids sigs h
    have he : verifyLegacySignature env ref tr ids =
        .error "legacy signatures found but verification failed" := by
      unfold verifyLegacySignature
      rw [h]
      rfl
    exact ⟨he, fun b hb => by rw [he] at hb; cases hb⟩
  · intro env ref tr ids sigs h
    have he : verifyBundledSignature env ref tr ids =
        .error "bundled signatures found but verification failed" := by
      unfold verifyBundledSignature
      rw [h]
      rfl
    exact ⟨he, fun b hb => by rw [he] at hb; cases hb⟩

/-- Witness for C2 at a concrete environment in which both queries report signatures
found with the bundle-verified flag false. -/
theorem found_but_unverified_fails_witness :
    verifyLegacySignature envUnverified "img" .root [] =
      .error "legacy signatures found but verification failed" ∧
    verifyBundledSignature envUnverified "img" .root [] =
      .error "bundled signatures found but verification failed" :=
  ⟨(found_but_unverified_fails.1 envUnverified "img" .root []
      [.decoded CosignSignatureType] rfl).1,
    (found_but_unverified_fails.2 envUnverified "img" .root []
      [.decoded CosignSignPredicateType] rfl).1⟩

/-- Claim C3: under a verified signature set (no query error, bundle-verified true),
the per-format verifier reports the format present exactly when every returned
signature decodes and carries the expected type tag, and any malformed signature makes
it fail with an error instead of reporting the format present or absent. -/
theorem malformed_signature_fails :
    (∀ (env : Env) (ref : String) (tr : TrustedRoot) (ids : List Identity)
      (sigs : List LegacySigDecode),
      env.verifyImageSignatures ref tr ids = (sigs, true, none) →
        (verifyLegacySignature env ref tr ids = .ok true ↔
          ∀ s ∈ sigs, legacyWellFormed s = true) ∧
        ((∃ s ∈ sigs, legacyWellFormed s = false) →
          ∃ m, verifyLegacySignature env ref tr ids = .error m)) ∧
    (∀ (env : Env) (ref : String) (tr : TrustedRoot) (ids : List Identity)
      (sigs : List BundledSigDecode),
      env.verifyImageAttestations ref tr ids = (sigs, true, none) →
        (verifyBundledSignature env ref tr ids = .ok true ↔
          ∀ s ∈ sigs, bundledWellFormed s = true) ∧
        ((∃ s ∈ sigs, bundledWellFormed s = false) →
          ∃ m, verifyBundledSignature env ref tr ids = .error m)) := by
  constructor
  · intro env ref tr ids sigs h
    have he : verifyLegacySignature env ref tr ids =
        match checkLegacySignatures sigs with
        | .error e => .error e
        | .ok _ => .ok true := by
      unfold verifyLegacySignature
      rw [h]
      rfl
    cases hc : checkLegacySignatures sigs with
    | error m =>
      have he2 : verifyLegacySignature env ref tr ids = .error m := by rw [he, hc]
      refine ⟨?_, fun _ => ⟨m, he2⟩⟩
      rw [he2]
      constructor
      · intro hcontra
        exact Except.noConfusion hcontra
      · intro hall
        have hok := (checkLegacySignatures_ok_iff sigs).2 hall
        rw [hc] at hok
        exact Except.noConfusion hok
    | ok u =>
      cases u
      have he2 : verifyLegacySignature env ref tr ids = .ok true := by rw [he, hc]
      have hall := (checkLegacySignatures_ok_iff sigs).1 hc
      refine ⟨iff_of_true he2 hall, ?_⟩
      rintro ⟨s, hs, hbad⟩
      have hgood := hall s hs
      rw [hgood] at hbad
      cases hbad
  · intro env ref tr ids sigs h
    have he : verifyBundledSignature env ref tr ids =
        match checkBundledSignatures sigs with
        | .error e => .error e
        | .ok _ => .ok true := by
      unfold verifyBundledSignature
      rw [h]
      rfl
    cases hc : checkBundledSignatures sigs with
    | error m =>
      have he2 : verifyBundledSignature env ref tr ids = .error m := by rw [he, hc]
      refine ⟨?_, fun _ => ⟨m, he2⟩⟩
      rw [he2]
      constructor
      · intro hcontra
        exact Except.noConfusion hcontra
      · intro hall
        have hok := (checkBundledSignatures_ok_iff sigs).2 hall
        rw [hc] at hok
        exact Except.noConfusion hok
    | ok u =>
      cases u
      have he2 : verifyBundledSignature env ref tr ids = .ok true := by rw [he, hc]
      have hall := (checkBundledSignatures_ok_iff sigs).1 hc
      refine ⟨iff_of_true he2 hall, ?_⟩
      rintro ⟨s, hs, hbad⟩
      have hgood := hall s hs
      rw [hgood] at hbad
      cases hbad

/-- Witness for C3 at a concrete environment returning verified signatures with wrong
type tags: both per-format verifiers fail. -/
theorem malformed_signature_fails_witness :
    (∃ m, verifyLegacySignature envMalformed "img" .root [] = .error m) ∧
    (∃ m, verifyBundledSignature envMalformed "img" .root [] = .error m) :=
  ⟨(malformed_signature_fails.1 envMalformed "img" .root [] [.decoded "wrong-type"]
      rfl).2 ⟨.decoded "wrong-type", by decide, by decide⟩,
    (malformed_signature_fails.2 envMalformed "img" .root [] [.decoded "wrong-predicate"]
      rfl).2 ⟨.decoded "wrong-predicate", by decide, by decide⟩⟩

/-- Claim C9: a per-format verification query failing with the typed absence error
(no signatures found for the legacy query, no matching attestations for the bundled
query) makes the verifier report the format absent with no error. -/
theorem absent_format_reports_false (env : Env) (ref : String) (tr : TrustedRoot)
    (ids : List Identity) :
    (∀ (sigs : List LegacySigDecode) (bv : Bool),
      env.verifyImageSignatures ref tr ids =
        (sigs, bv, some VerifyError.errNoSignaturesFound) →
      verifyLegacySignature env ref tr ids = .ok false) ∧
    (∀ (sigs : List BundledSigDecode) (bv : Bool),
      env.verifyImageAttestations ref tr ids =
        (sigs, bv, some VerifyError.errNoMatchingAttestations) →
      verifyBundledSignature env ref tr ids = .ok false) := by
  constructor
  · intro sigs bv h
    unfold verifyLegacySignature
    rw [h]
    rfl
  · intro sigs bv h
    unfold verifyBundledSignature
    rw [h]
    rfl

/-- Witness for C9 at a concrete environment in which both formats are absent. -/
theorem absent_format_reports_false_witness :
    verifyLegacySignature envAllMissing "img" .root [] = .ok false ∧
    verifyBundledSignature envAllMissing "img" .root [] = .ok false :=
  ⟨(absent_format_reports_false envAllMissing "img" .root []).1 [] false rfl,
    (absent_format_reports_false envAllMissing "img" .root []).2 [] false rfl⟩

/-- Claim C4: an image whose inspection reports both formats present is skipped by the
batch loop: its step adds the image to the inspected trace and changes nothing else
(no dispatch, no sign.SignCmd call, no token attempt, no OIDConnect), processing
continues with the remaining images, and such an image is never dispatched in any
batch. -/
theorem reconcile_skips_fully_signed (env : Env) (opts : SignCmdOptions) (image : String)
    (h : VerifySignature env image (identitiesOf opts) = .ok ⟨true, true⟩) :
    (∀ rest, signImages env opts (image :: rest) =
      { result := (signImages env opts rest).result
        inspected := image :: (signImages env opts rest).inspected
        dispatched := (signImages env opts rest).dispatched
        calls := (signImages env opts rest).calls
        tokenAttempts := (signImages env opts rest).tokenAttempts
        oidConnects := (signImages env opts rest).oidConnects }) ∧
    (∀ images, image ∉ (signImages env opts images).dispatched) := by
  constructor
  · intro rest
    simp [signImages, h]
  · intro images
    induction images with
    | nil => simp [signImages]
    | cons a rest ih =>
      by_cases ha : a = image
      · subst ha
        simp [signImages, h, ih]
      · cases hv : VerifySignature env a (identitiesOf opts) with
        | error e => simp [signImages, hv]
        | ok st =>
          by_cases hb : (st.LegacySignature && st.BundleSignature) = true
          · simp [signImages, hv, hb, ih]
          · cases hs : (SignImage env a st.LegacySignature st.BundleSignature
              opts.oidcProvider opts.deviceFlow opts.timeout).result with
            | error e =>
              simp [signImages, hv, hb, hs]
              exact fun hh => ha hh.symm
            | ok u =>
              simp [signImages, hv, hb, hs, ih]
              exact fun hh => ha hh.symm

/-- Witness for C4: in the all-signed environment the first image is reported fully
signed and is never dispatched. -/
theorem reconcile_skips_fully_signed_witness :
    "a" ∉ (signImages envAllSigned optsGoogleDevice ["a", "b"]).dispatched :=
  (reconcile_skips_fully_signed envAllSigned optsGoogleDevice "a" rfl).2 ["a", "b"]

theorem signImages_cons_of_ok (env : Env) (opts : SignCmdOptions) (a : String)
    (rest : List String) (ha : imageOk env opts a = true) :
    (signImages env opts (a :: rest)).result = (signImages env opts rest).result ∧
    (signImages env opts (a :: rest)).inspected =
      a :: (signImages env opts rest).inspected := by
  cases hv : VerifySignature env a (identitiesOf opts) with
  | error e => simp [imageOk, hv] at ha
  | ok st =>
    by_cases hb : (st.LegacySignature && st.BundleSignature) = true
    · simp [signImages, hv, hb]
    · cases hs : (SignImage env a st.LegacySignature st.BundleSignature
        opts.oidcProvider opts.deviceFlow opts.timeout).result with
      | error e => simp [imageOk, hv, hb, hs] at ha
      | ok u =>
        cases u
        simp [signImages, hv, hb, hs]

theorem signImages_cons_of_bad (env : Env) (opts : SignCmdOptions) (a : String)
    (rest : List String) (ha : imageOk env opts a = false) :
    (signImages env opts (a :: rest)).result = imageStepError env opts a ∧
    (signImages env opts (a :: rest)).inspected = [a] := by
  cases hv : VerifySignature env a (identitiesOf opts) with
  | error e => simp [signImages, imageStepError, hv]
  | ok st =>
    by_cases hb : (st.LegacySignature && st.BundleSignature) = true
    · simp [imageOk, hv, hb] at ha
    · cases hs : (SignImage env a st.LegacySignature st.BundleSignature
        opts.oidcProvider opts.deviceFlow opts.timeout).result with
      | error e => simp [signImages, imageStepError, hv, hb, hs]
      | ok u => simp [imageOk, hv, hb, hs] at ha

theorem imageStepError_of_bad (env : Env) (opts : SignCmdOptions) (a : String)
    (ha : imageOk env opts a = false) :
    ∃ m, imageStepError env opts a = .error m := by
  cases hv : VerifySignature env a (identitiesOf opts) with
  | error e => exact ⟨e, by simp [imageStepError, hv]⟩
  | ok st =>
    by_cases hb : (st.LegacySignature && st.BundleSignature) = true
    · simp [imageOk, hv, hb] at ha
    · cases hs : (SignImage env a st.LegacySignature st.BundleSignature
        opts.oidcProvider opts.deviceFlow opts.timeout).result with
      | error e =>
        exact ⟨"failed to sign image " ++ a ++ ": " ++ e,
          by simp [imageStepError, hv, hb, hs]⟩
      | ok u => simp [imageOk, hv, hb, hs] at ha

/-- Claim C5: the batch returns no error exactly when every image is skipped or
successfully signed, and for any batch split into a prefix of succeeding images
followed by a failing image, the run returns exactly that image's error and the
inspected trace stops at it, in input order; no later image is touched. -/
theorem reconcile_sequential_fail_fast (env : Env) (opts : SignCmdOptions) :
    (∀ images, ((signImages env opts images).result = .ok () ↔
      ∀ i ∈ images, imageOk env opts i = true)) ∧
    (∀ (lpre : List String) (image : String) (lpost : List String),
      (∀ i ∈ lpre, imageOk env opts i = true) →
      imageOk env opts image = false →
      (signImages env opts (lpre ++ image :: lpost)).result =
        imageStepError env opts image ∧
      (∃ m, (signImages env opts (lpre ++ image :: lpost)).result = .error m) ∧
      (signImages env opts (lpre ++ image :: lpost)).inspected = lpre ++ [image]) := by
  constructor
  · intro images
    induction images with
    | nil => simp [signImages]
    | cons a rest ih =>
      by_cases ha : imageOk env opts a = true
      · have h2 := signImages_cons_of_ok env opts a rest ha
        rw [h2.1, ih]
        simp [ha]
      · have ha2 : imageOk env opts a = false := by
          cases hq : imageOk env opts a
          · rfl
          · exact absurd hq ha
        have h2 := signImages_cons_of_bad env opts a rest ha2
        obtain ⟨m, hm⟩ := imageStepError_of_bad env opts a ha2
        rw [h2.1, hm]
        constructor
        · intro hcontra
          exact Except.noConfusion hcontra
        · intro hall
          have := hall a (List.mem_cons_self a rest)
          rw [this] at ha2
          cases ha2
  · intro lpre
    induction lpre with
    | nil =>
      intro image lpost _ hbad
      have h2 := signImages_cons_of_bad env opts image lpost hbad
      obtain ⟨m, hm⟩ := imageStepError_of_bad env opts image hbad
      exact ⟨h2.1, ⟨m, by rw [List.nil_append, h2.1, hm]⟩, h2.2⟩
    | cons a lpre ih =>
      intro image lpost hpre hbad
      have ha : imageOk env opts a = true := hpre a (List.mem_cons_self a lpre)
      have hpre2 : ∀ i ∈ lpre, imageOk env opts i = true :=
        fun i hi => hpre i (List.mem_cons_of_mem a hi)
      have h2 := signImages_cons_of_ok env opts a (lpre ++ image :: lpost) ha
      have ihr := ih image lpost hpre2 hbad
      refine ⟨?_, ?_, ?_⟩
      · rw [List.cons_append, h2.1, ihr.1]
      · obtain ⟨m, hm⟩ := ihr.2.1
        exact ⟨m, by rw [List.cons_append, h2.1, hm]⟩
      · rw [List.cons_append, h2.2, ihr.2.2]
        rfl

/-- Witness for C5: with the image named bad failing inspection between two healthy
images, the run returns the bad image's inspection error and inspects nothing after
it. -/
theorem reconcile_sequential_fail_fast_witness :
    (signImages envMixed optsGoogleDevice ["good", "bad", "after"]).result =
      imageStepError envMixed optsGoogleDevice "bad" ∧
    (signImages envMixed optsGoogleDevice ["good", "bad", "after"]).inspected =
      ["good", "bad"] := by
  have h := (reconcile_sequential_fail_fast envMixed optsGoogleDevice).2
    ["good"] "bad" ["after"] (by decide) (by decide)
  exact ⟨h.1, h.2.2⟩

/-- Claim C6: with the trusted root and the token acquired, SignImage invokes the
signing backend exactly for the missing formats, legacy first then bundled; only the
bundled invocation carries the new-bundle-format flag on both option records and the
signing-config opt-in; and a failing legacy call aborts the function with its wrapped
error before any bundled call. -/
theorem sign_image_dispatch (env : Env) (image provider : String)
    (legacySigned bundleSigned deviceFlow : Bool) (timeout : Nat)
    (tr : TrustedRoot) (tok : String) (nconn : Nat)
    (hroot : env.trustedRoot = .ok tr)
    (htok : getTokenBody env provider deviceFlow = (.ok tok, nconn)) :
    ((legacySignCall image tr tok timeout).keyOpts.newBundleFormat = false ∧
      (legacySignCall image tr tok timeout).signOpts.newBundleFormat = false ∧
      (legacySignCall image tr tok timeout).signOpts.useSigningConfig = false ∧
      (bundledSignCall image tr tok timeout).keyOpts.newBundleFormat = true ∧
      (bundledSignCall image tr tok timeout).signOpts.newBundleFormat = true ∧
      (bundledSignCall image tr tok timeout).signOpts.useSigningConfig = true) ∧
    (∀ e, legacySigned = false →
      env.signCmd ⟨timeout⟩ (mkKeyOptions tr tok) mkSignOptions [image] = .error e →
      SignImage env image legacySigned bundleSigned provider deviceFlow timeout =
        ⟨.error ("error signing legacy signature for image " ++ image ++ ": " ++ e),
          [legacySignCall image tr tok timeout], 1, nconn⟩) ∧
    ((legacySigned = true ∨
      env.signCmd ⟨timeout⟩ (mkKeyOptions tr tok) mkSignOptions [image] = .ok ()) →
      (SignImage env image legacySigned bundleSigned provider deviceFlow timeout).calls =
        (if legacySigned then [] else [legacySignCall image tr tok timeout]) ++
        (if bundleSigned then [] else [bundledSignCall image tr tok timeout])) := by
  refine ⟨⟨rfl, rfl, rfl, rfl, rfl, rfl⟩, ?_, ?_⟩
  · intro e hleg hsign
    subst hleg
    simp [SignImage, hroot, htok, onceCall, signLegacyPhase, hsign, legacySignCall]
  · intro hok
    rcases hok with hleg | hsign
    · subst hleg
      cases bundleSigned with
      | true =>
        simp [SignImage, hroot, htok, onceCall, signLegacyPhase, signBundledPhase]
      | false =>
        cases hs2 : env.signCmd ⟨timeout⟩
            { mkKeyOptions tr tok with newBundleFormat := true }
            { mkSignOptions with newBundleFormat := true, useSigningConfig := true }
            [image] with
        | error e =>
          simp [SignImage, hroot, htok, onceCall, signLegacyPhase, signBundledPhase,
            hs2, bundledSignCall]
        | ok u =>
          cases u
          simp [SignImage, hroot, htok, onceCall, signLegacyPhase, signBundledPhase,
            hs2, bundledSignCall]
    · cases legacySigned with
      | true =>
        cases bundleSigned with
        | true =>
          simp [SignImage, hroot, htok, onceCall, signLegacyPhase, signBundledPhase]
        | false =>
          cases hs2 : env.signCmd ⟨timeout⟩
              { mkKeyOptions tr tok with newBundleFormat := true }
              { mkSignOptions with newBundleFormat := true, useSigningConfig := true }
              [image] with
          | error e =>
            simp [SignImage, hroot, htok, onceCall, signLegacyPhase, signBundledPhase,
              hs2, bundledSignCall]
          | ok u =>
            cases u
            simp [SignImage, hroot, htok, onceCall, signLegacyPhase, signBundledPhase,
              hs2, bundledSignCall]
      | false =>
        cases bundleSigned with
        | true =>
          simp [SignImage, hroot, htok, onceCall, signLegacyPhase, signBundledPhase,
            hsign, legacySignCall]
        | false =>
          cases hs2 : env.signCmd ⟨timeout⟩
              { mkKeyOptions tr tok with newBundleFormat := true }
              { mkSignOptions with newBundleFormat := true, useSigningConfig := true }
              [image] with
          | error e =>
            simp [SignImage, hroot, htok, onceCall, signLegacyPhase, signBundledPhase,
              hsign, hs2, legacySignCall, bundledSignCall]
          | ok u =>
            cases u
            simp [SignImage, hroot, htok, onceCall, signLegacyPhase, signBundledPhase,
              hsign, hs2, legacySignCall, bundledSignCall]

/-- Witness for C6: in the all-missing environment a SignImage call for an image
missing both formats performs exactly the legacy call followed by the bundled call. -/
theorem sign_image_dispatch_witness :
    (SignImage envAllMissing "img" false false "google" false 300).calls =
      [legacySignCall "img" .root "token-value" 300,
        bundledSignCall "img" .root "token-value" 300] := by
  have h := (sign_image_dispatch envAllMissing "img" "google" false false false 300
    .root "token-value" 1 rfl rfl).2.2 (Or.inr rfl)
  simpa using h

/-- Claim C7 counterexample: with the device flow requested and the unrecognized
provider yahoo, getToken selects no token getter at all - the provider switch fails
first with the unsupported-provider error, so the device-flow override does not apply
to every provider value. -/
theorem device_flow_override_counterexample :
    selectTokenGetter "yahoo" true = .error "unsupported provider: yahoo" ∧
    selectTokenGetter "yahoo" true ≠
      .ok (TokenGetter.deviceFlowTokenGetterForIssuer DefaultOIDCIssuerURL) := by
  constructor
  · rfl
  · intro h
    exact Except.noConfusion h

/-- Claim C7 as amended: for every provider the switch recognizes (the empty default,
google, github and microsoft), a requested device flow overrides the provider-specific
getter with the device-code flow against the fixed default issuer; unrecognized
providers fail with the unsupported-provider error before the override. -/
theorem device_flow_override_supported (provider : String)
    (h : supportedProvider provider = true) :
    selectTokenGetter provider true =
      .ok (TokenGetter.deviceFlowTokenGetterForIssuer DefaultOIDCIssuerURL) ∧
    (supportedProvider provider = false →
      ∃ e, selectTokenGetter provider true = .error e) := by
  refine ⟨?_, fun hf => absurd h (by rw [hf]; exact fun hh => Bool.noConfusion hh)⟩
  have hcases : ((provider = "" ∨ provider = "google") ∨ provider = "github") ∨
      provider = "microsoft" := by
    simpa [supportedProvider] using h
  rcases hcases with ((hp | hp) | hp) | hp <;> subst hp <;> rfl

/-- Witness for the amended C7 at the github provider. -/
theorem device_flow_override_supported_witness :
    selectTokenGetter "github" true =
      .ok (TokenGetter.deviceFlowTokenGetterForIssuer DefaultOIDCIssuerURL) :=
  (device_flow_override_supported "github" rfl).1

/-- Claim C8: an unrecognized provider makes the token body fail with the
unsupported-provider error and zero OIDConnect invocations, and a repeated call on the
same memoized getter returns the same cached error with no retry of the flow. -/
theorem unsupported_provider_cached (env : Env) (provider : String) (deviceFlow : Bool)
    (h : supportedProvider provider = false) :
    getTokenBody env provider deviceFlow =
      (.error ("unsupported provider: " ++ provider), 0) ∧
    (onceCall (getTokenBody env provider deviceFlow) none).result =
      .error ("unsupported provider: " ++ provider) ∧
    (onceCall (getTokenBody env provider deviceFlow) none).connects = 0 ∧
    onceCall (getTokenBody env provider deviceFlow)
        (onceCall (getTokenBody env provider deviceFlow) none).cell =
      ⟨.error ("unsupported provider: " ++ provider),
        some (.error ("unsupported provider: " ++ provider)), 0, 0⟩ := by
  have hcases : ¬(provider = "" ∨ provider = "google" ∨ provider = "github" ∨
      provider = "microsoft") := by
    intro hc
    have : supportedProvider provider = true := by
      rcases hc with hp | hp | hp | hp <;> subst hp <;> rfl
    rw [this] at h
    exact Bool.noConfusion h
  push_neg at hcases
  obtain ⟨h1, h2, h3, h4⟩ := hcases
  have hbody : getTokenBody env provider deviceFlow =
      (.error ("unsupported provider: " ++ provider), 0) := by
    simp [getTokenBody, selectTokenGetter, providerTokenGetter, h1, h2, h3, h4]
  refine ⟨hbody, ?_, ?_, ?_⟩ <;> rw [hbody] <;> rfl

/-- Witness for C8 at the provider yahoo. -/
theorem unsupported_provider_cached_witness :
    getTokenBody envAllMissing "yahoo" true =
      (.error ("unsupported provider: " ++ "yahoo"), 0) ∧
    onceCall (getTokenBody envAllMissing "yahoo" true)
        (onceCall (getTokenBody envAllMissing "yahoo" true) none).cell =
      ⟨.error ("unsupported provider: " ++ "yahoo"),
        some (.error ("unsupported provider: " ++ "yahoo")), 0, 0⟩ := by
  have h := unsupported_provider_cached envAllMissing "yahoo" true rfl
  exact ⟨h.1, h.2.2.2⟩

/-- Claim C10: a SignImage call for an image already carrying both formats performs no
sign.SignCmd invocation at all, yet still fetches the trusted root and runs the
credential acquisition: with the root available the token body executes exactly once,
a token failure or root failure is returned as the wrapped error, and otherwise the
call returns no error. -/
theorem sign_image_both_present (env : Env) (image provider : String)
    (deviceFlow : Bool) (timeout : Nat) :
    (SignImage env image true true provider deviceFlow timeout).calls = [] ∧
    (∀ e, env.trustedRoot = .error e →
      SignImage env image true true provider deviceFlow timeout =
        ⟨.error ("error getting trusted roots: " ++ e), [], 0, 0⟩) ∧
    (∀ tr, env.trustedRoot = .ok tr →
      (SignImage env image true true provider deviceFlow timeout).tokenAttempts = 1 ∧
      (SignImage env image true true provider deviceFlow timeout).oidConnects =
        (getTokenBody env provider deviceFlow).2 ∧
      (∀ e n, getTokenBody env provider deviceFlow = (.error e, n) →
        (SignImage env image true true provider deviceFlow timeout).result =
          .error ("error getting OIDC token: " ++ e)) ∧
      (∀ t n, getTokenBody env provider deviceFlow = (.ok t, n) →
        SignImage env image true true provider deviceFlow timeout =
          ⟨.ok (), [], 1, n⟩)) := by
  refine ⟨?_, ?_, ?_⟩
  · cases hroot : env.trustedRoot with
    | error e => simp [SignImage, hroot]
    | ok tr =>
      cases hgb : (getTokenBody env provider deviceFlow).1 with
      | error e => simp [SignImage, hroot, onceCall, hgb]
      | ok t =>
        simp [SignImage, hroot, onceCall, hgb, signLegacyPhase, signBundledPhase]
  · intro e hroot
    simp [SignImage, hroot]
  · intro tr hroot
    refine ⟨?_, ?_, ?_, ?_⟩
    · cases hgb : (getTokenBody env provider deviceFlow).1 with
      | error e => simp [SignImage, hroot, onceCall, hgb]
      | ok t =>
        simp [SignImage, hroot, onceCall, hgb, signLegacyPhase, signBundledPhase]
    · cases hgb : (getTokenBody env provider deviceFlow).1 with
      | error e => simp [SignImage, hroot, onceCall, hgb]
      | ok t =>
        simp [SignImage, hroot, onceCall, hgb, signLegacyPhase, signBundledPhase]
    · intro e n hgb
      simp [SignImage, hroot, onceCall, hgb]
    · intro t n hgb
      simp [SignImage, hroot, onceCall, hgb, signLegacyPhase, signBundledPhase]

/-- Witness for C10: in the all-missing environment a call with both flags set returns
no error, performs no signing call, and runs the token body once with one OIDConnect. -/
theorem sign_image_both_present_witness :
    SignImage envAllMissing "img" true true "google" true 300 = ⟨.ok (), [], 1, 1⟩ :=
  ((sign_image_both_present envAllMissing "img" "google" true 300).2.2 .root rfl).2.2.2
    "token-value" 1 rfl

/-- Claim C1 is violated by the code: getToken wraps its body in a fresh
sync.OnceValues cell on every call instead of memoizing one cell per
(provider, deviceFlow) pair, and SignImage calls getToken anew, so a two-image batch
needing signing with the identical google/device-flow pair executes the
authentication flow twice - two token-body runs and two OIDConnect invocations -
where the claim (and the sign command's own help text) requires exactly one. -/
theorem batch_auth_flow_per_image :
    (signImages envAllMissing optsGoogleDevice ["img1", "img2"]).oidConnects = 2 ∧
    (signImages envAllMissing optsGoogleDevice ["img1", "img2"]).tokenAttempts = 2 ∧
    (signImages envAllMissing optsGoogleDevice ["img1", "img2"]).result = .ok () ∧
    optsGoogleDevice.oidcProvider = "google" ∧
    optsGoogleDevice.deviceFlow = true := by
  refine ⟨?_, ?_, ?_, rfl, rfl⟩ <;> rfl

end GoTools
